import Mathlib

/-!
Verification of the frappe_devops_monitor repository: a shallow embedding of
its log-collection, metric-sampling, alert-evaluation, settings-validation and
retention-sweep code, with theorems settling the specification claims.

Python strings are modeled as Lean strings (lists of characters); where the
source measures file sizes in bytes, the model measures characters, which is
exact for single-byte text and immaterial to every property proved here.
Floating-point metric values are modeled as rationals.
-/

/- ### Generic string helpers mirroring Python primitives -/

/-- Python substring containment, the operator (pat in l) on strings:
true iff pat occurs contiguously inside l. -/
def listContains (l pat : List Char) : Bool :=
  match l with
  | [] => pat = []
  | _ :: t => (pat = l.take pat.length) || listContains t pat

/-- Python str.upper, character by character (ASCII case mapping). -/
def pyUpper (s : String) : List Char :=
  s.data.map Char.toUpper

/-- Python str.lower, character by character (ASCII case mapping). -/
def pyLower (s : String) : List Char :=
  s.data.map Char.toLower

/-- Python truthiness of line.strip(): true iff the line has a
non-whitespace character. -/
def pyStripTruthy (l : List Char) : Bool :=
  l.any (fun c => !c.isWhitespace)

/-- Python str.strip(): remove leading and trailing whitespace. -/
def pyStrip (l : List Char) : List Char :=
  ((l.dropWhile Char.isWhitespace).reverse.dropWhile Char.isWhitespace).reverse

/-- Python content.split(sep) for a one-character separator: note that
splitting the empty string yields one empty piece. -/
def pySplitChar (sep : Char) : List Char → List (List Char)
  | [] => [[]]
  | c :: t =>
    if c = sep then [] :: pySplitChar sep t
    else
      match pySplitChar sep t with
      | h :: r => (c :: h) :: r
      | [] => [[c]]

/-- Python negative-index tail slice data[-n:], whose n = 0 case yields the
whole list (because -0 is 0). -/
def pyLastSlice (l : List α) (n : Nat) : List α :=
  if n = 0 then l else l.drop (l.length - n)

/- ### Log level detection -/

/-- LogCollector._detect_log_level (log_collector.py): scan the upper-cased
line for level keywords in priority order, defaulting to INFO. -/
def detect_log_level (line : String) : String :=
  let line_upper := pyUpper line
  if listContains line_upper "CRITICAL".data || listContains line_upper "FATAL".data
      || listContains line_upper "EMERGENCY".data then "CRITICAL"
  else if listContains line_upper "ERROR".data then "ERROR"
  else if listContains line_upper "WARNING".data || listContains line_upper "WARN".data then
    "WARNING"
  else if listContains line_upper "INFO".data then "INFO"
  else if listContains line_upper "DEBUG".data then "DEBUG"
  else "INFO"

/-- detect_log_level (api.py): same scan, except that its first test checks
only CRITICAL and FATAL, without EMERGENCY. -/
def api_detect_log_level (line : String) : String :=
  let line_upper := pyUpper line
  if listContains line_upper "CRITICAL".data || listContains line_upper "FATAL".data then
    "CRITICAL"
  else if listContains line_upper "ERROR".data then "ERROR"
  else if listContains line_upper "WARNING".data || listContains line_upper "WARN".data then
    "WARNING"
  else if listContains line_upper "INFO".data then "INFO"
  else if listContains line_upper "DEBUG".data then "DEBUG"
  else "INFO"

/- ### Deterministic matchers for the three timestamp regexes

The source applies re.search / re.sub with three fixed patterns.  Each matcher
below consumes a prefix of its input and returns the number of characters
matched.  At every point of these particular patterns the greedy quantifier is
followed by a character class disjoint from the quantified one, so greedy
matching without backtracking coincides with Python regex semantics; the only
genuine alternative, the d-1-2 quantifier of the syslog pattern, is written as
an explicit two-branch alternation. -/

/-- Python regex character class d (restricted to ASCII digits). -/
def pyIsDigit (c : Char) : Bool := c.isDigit

/-- Python regex character class w (letters, digits, underscore). -/
def pyIsWord (c : Char) : Bool := c.isAlphanum || c = '_'

/-- Python regex character class s (whitespace). -/
def pyIsSpace (c : Char) : Bool := c.isWhitespace

/-- Match one literal character. -/
def mLit (ch : Char) : List Char → Option Nat
  | c :: _ => if c = ch then some 1 else none
  | [] => none

/-- Match exactly k characters of class p. -/
def mCount (p : Char → Bool) (k : Nat) (cs : List Char) : Option Nat :=
  if (cs.take k).length = k && (cs.take k).all p then some k else none

/-- Greedy one-or-more characters of class p. -/
def mPlus (p : Char → Bool) (cs : List Char) : Option Nat :=
  let n := (cs.takeWhile p).length
  if n = 0 then none else some n

/-- Greedy zero-or-more characters of class p. -/
def mStar (p : Char → Bool) (cs : List Char) : Option Nat :=
  some (cs.takeWhile p).length

/-- Sequencing of matchers. -/
def mSeq (a b : List Char → Option Nat) (cs : List Char) : Option Nat :=
  match a cs with
  | none => none
  | some n =>
    match b (cs.drop n) with
    | none => none
    | some m => some (n + m)

/-- Ordered alternation of matchers (first branch preferred). -/
def mAlt (a b : List Char → Option Nat) (cs : List Char) : Option Nat :=
  match a cs with
  | some n => some n
  | none => b cs

/-- Optional group (greedy: matches when it can). -/
def mOpt (a : List Char → Option Nat) (cs : List Char) : Option Nat :=
  match a cs with
  | some n => some n
  | none => some 0

/-- The time-of-day tail dd:dd:dd shared by all three patterns. -/
def mTime : List Char → Option Nat :=
  mSeq (mCount pyIsDigit 2) (mSeq (mLit ':')
    (mSeq (mCount pyIsDigit 2) (mSeq (mLit ':') (mCount pyIsDigit 2))))

/-- ISO-like pattern dddd-dd-dd s+ dd:dd:dd with optional fractional part. -/
def isoPattern : List Char → Option Nat :=
  mSeq (mCount pyIsDigit 4) (mSeq (mLit '-')
    (mSeq (mCount pyIsDigit 2) (mSeq (mLit '-')
      (mSeq (mCount pyIsDigit 2) (mSeq (mPlus pyIsSpace)
        (mSeq mTime (mOpt (mSeq (mLit '.') (mPlus pyIsDigit)))))))))

/-- Common-log pattern dd/w+/dddd:dd:dd:dd. -/
def commonLogPattern : List Char → Option Nat :=
  mSeq (mCount pyIsDigit 2) (mSeq (mLit '/')
    (mSeq (mPlus pyIsWord) (mSeq (mLit '/')
      (mSeq (mCount pyIsDigit 4) (mSeq (mLit ':') mTime)))))

/-- Syslog pattern www s+ d or dd s+ dd:dd:dd; the one-or-two-digit day is an
explicit alternation preferring two digits, as the greedy quantifier does. -/
def syslogPattern : List Char → Option Nat :=
  mSeq (mCount pyIsWord 3) (mSeq (mPlus pyIsSpace)
    (mAlt (mSeq (mCount pyIsDigit 2) (mSeq (mPlus pyIsSpace) mTime))
          (mSeq (mCount pyIsDigit 1) (mSeq (mPlus pyIsSpace) mTime))))

/-- re.search: try the matcher at each start position from the left and
return the first (leftmost) matched substring. -/
def reSearch (m : List Char → Option Nat) : List Char → Option (List Char)
  | [] =>
    match m [] with
    | some _ => some []
    | none => none
  | c :: t =>
    match m (c :: t) with
    | some n => some ((c :: t).take n)
    | none => reSearch m t

/-- Recursion core of re.sub, structural on a fuel argument that starts at
the length of the list and therefore never runs out: every step either
drops at least one character through a match or copies one character. -/
def reSubAux (m : List Char → Option Nat) : Nat → List Char → List Char
  | _, [] => []
  | 0, cs => cs
  | fuel + 1, c :: t =>
    match m (c :: t) with
    | some (n + 1) => reSubAux m fuel (t.drop n)
    | _ => c :: reSubAux m fuel t

/-- re.sub with empty replacement: delete every non-overlapping match,
scanning left to right.  All patterns used here match at least one
character, which the some-successor branch of reSubAux makes explicit. -/
def reSubAll (m : List Char → Option Nat) (cs : List Char) : List Char :=
  reSubAux m cs.length cs

/- ### Timestamp extraction and message cleaning (log_collector.py) -/

/-- LogCollector._extract_timestamp: try the three patterns in order and
return the first match found anywhere in the line, else nothing. -/
def extract_timestamp (line : String) : Option String :=
  match reSearch isoPattern line.data with
  | some m => some (String.mk m)
  | none =>
    match reSearch commonLogPattern line.data with
    | some m => some (String.mk m)
    | none =>
      match reSearch syslogPattern line.data with
      | some m => some (String.mk m)
      | none => none

/-- LogCollector._clean_log_message: delete every occurrence of each
timestamp pattern (with its trailing whitespace) in pattern order, then
strip the result. -/
def clean_log_message (line : String) : String :=
  let m1 := reSubAll (mSeq isoPattern (mStar pyIsSpace)) line.data
  let m2 := reSubAll (mSeq commonLogPattern (mStar pyIsSpace)) m1
  let m3 := reSubAll (mSeq syslogPattern (mStar pyIsSpace)) m2
  String.mk (pyStrip m3)

/-- The record built by LogCollector._parse_log_line for one physical line. -/
structure ParsedLog where
  timestamp : String
  source : String
  level : String
  message : String
  raw : String
deriving DecidableEq, Repr

/-- LogCollector._parse_log_line: classify the line; the timestamp falls back
to the current time (passed here as the iso string now) when extraction
finds nothing. -/
def parse_log_line (now : String) (line : String) (src : String) : ParsedLog :=
  { timestamp := (extract_timestamp line).getD now
    source := src
    level := detect_log_level line
    message := clean_log_message line
    raw := line }

/- ### Stable descending sort (the model of Python sorted with reverse) -/

/-- Insert x into a descending-sorted list, after any element whose key is
greater than or equal: together with left-to-right insertion this is the
stable descending sort, the function Python sorted(key, reverse) computes. -/
def insertDescBy [LinearOrder β] (key : α → β) (x : α) : List α → List α
  | [] => [x]
  | y :: ys => if key x ≤ key y then y :: insertDescBy key x ys else x :: y :: ys

/-- Stable descending sort by a key. -/
def sortDescBy [LinearOrder β] (key : α → β) (l : List α) : List α :=
  l.foldl (fun acc x => insertDescBy key x acc) []

/- ### Reading and collecting logs (log_collector.py) -/

/-- os.path.join for a directory and a file name (directory given without a
trailing separator). -/
def os_path_join (base fname : String) : String := base ++ "/" ++ fname

/-- LogCollector._read_log_file: seek to a byte-budget estimate of lines
times 300 from the end, read to the end, split on newlines, keep the last
lines entries, and parse every non-blank one. -/
def read_log_file (content : String) (lines : Nat) (src : String) (now : String) :
    List ParsedLog :=
  let file_size := content.data.length
  let bytes_to_read := min (lines * 300) file_size
  let log_lines := pySplitChar '\n' (content.data.drop (file_size - bytes_to_read))
  ((pyLastSlice log_lines lines).filter pyStripTruthy).map
    (fun l => parse_log_line now (String.mk l) src)

/-- The configuration record (DevOps Monitor Settings) restricted to the
fields this development reads: enable flags, the percentage and slow-query
thresholds, and the frappe log directory.  Thresholds are integers as
configured; the slow-query threshold is optional (unset models None). -/
structure MonitorSettings where
  enable_monitoring : Bool
  enable_alerts : Bool
  cpu_threshold : Int
  memory_threshold : Int
  disk_threshold : Int
  error_rate_threshold : Int
  slow_query_threshold : Option ℚ
  frappe_log_path : String
deriving DecidableEq, Repr

/-- LogCollector.collect_frappe_logs: the file system is a partial map from
paths to contents (a missing file maps to nothing).  Existing files in the
fixed four-file group are each tailed and parsed; the concatenation is
sorted descending by timestamp string and truncated to the budget. -/
def collect_frappe_logs (settings : Option MonitorSettings) (fs : String → Option String)
    (now : String) (lines : Nat) : List ParsedLog :=
  match settings with
  | none => []
  | some s =>
    let log_files := [("frappe.log", os_path_join s.frappe_log_path "frappe.log"),
                      ("web.log", os_path_join s.frappe_log_path "web.log"),
                      ("worker.log", os_path_join s.frappe_log_path "worker.log"),
                      ("scheduler.log", os_path_join s.frappe_log_path "scheduler.log")]
    let logs := log_files.foldl (fun acc sf =>
      match fs sf.2 with
      | some content => acc ++ read_log_file content lines sf.1 now
      | none => acc) []
    (sortDescBy (fun x => x.timestamp) logs).take lines

/-- LogCollector.collect_error_logs: as collect_frappe_logs for the
two-file error group. -/
def collect_error_logs (settings : Option MonitorSettings) (fs : String → Option String)
    (now : String) (lines : Nat) : List ParsedLog :=
  match settings with
  | none => []
  | some s =>
    let log_files := [("error.log", os_path_join s.frappe_log_path "error.log"),
                      ("web.error.log", os_path_join s.frappe_log_path "web.error.log")]
    let logs := log_files.foldl (fun acc sf =>
      match fs sf.2 with
      | some content => acc ++ read_log_file content lines sf.1 now
      | none => acc) []
    (sortDescBy (fun x => x.timestamp) logs).take lines

/- ### tail_log_file (utils.py) -/

/-- Seek relative to the current position on a Python text-mode file: text
streams reject every nonzero cur-relative seek with io.UnsupportedOperation,
which an Except error models. -/
def textSeekCur (offset : Int) : Except String Unit :=
  if offset = 0 then Except.ok ()
  else Except.error "io.UnsupportedOperation: cannot do nonzero cur-relative seeks"

/-- The chunked while loop of tail_log_file.  Each iteration first seeks
backward by the chunk size relative to the current position; on a text-mode
file that seek raises as soon as the chunk size is nonzero, so the loop can
only complete its first iteration through the error branch whenever it is
entered at all. -/
def tailLoop (content : List Char) (lines : Nat) (file_size : Nat)
    (bytes_read : Nat) (data : List (List Char)) : Except String (List (List Char)) :=
  if bytes_read < file_size ∧ data.length < lines then
    let bytes_to_read := min 8192 (file_size - bytes_read)
    match textSeekCur (-(bytes_to_read : Int)) with
    | Except.error e => Except.error e
    | Except.ok _ =>
      let chunk := (content.drop (file_size - bytes_read - bytes_to_read)).take bytes_to_read
      let data2 := pySplitChar '\n' chunk ++ data
      if file_size ≤ bytes_read + bytes_to_read then Except.ok data2
      else tailLoop content lines file_size (bytes_read + bytes_to_read) data2
  else Except.ok data
termination_by file_size - bytes_read
decreasing_by
  have h1 : 1 ≤ min 8192 (file_size - bytes_read) := by omega
  omega

/-- utils.tail_log_file: a missing file yields the empty list; otherwise the
chunked loop runs inside a try whose except clause turns any raised
exception into the empty list, and on success the last lines entries are
returned. -/
def tail_log_file (file : Option String) (lines : Nat) : List String :=
  match file with
  | none => []
  | some content =>
    let file_size := content.data.length
    match tailLoop content.data lines file_size 0 [] with
    | Except.error _ => []
    | Except.ok data => (pyLastSlice data lines).map String.mk

/- ### Alert evaluation (monitor.py, AlertManager) -/

/-- Python percent-formatting with one decimal place, modeled exactly on
rationals that are integer multiples of one tenth (every value the claims
exercise): the value in tenths is the floor of 10q + one half, computed on
the reduced fraction by integer arithmetic, then printed around the point. -/
def fmt1 (q : ℚ) : String :=
  let t : Int := Int.ediv (20 * q.num + q.den) (2 * q.den)
  (if t < 0 then "-" else "") ++ toString (t.natAbs / 10) ++ "." ++ toString (t.natAbs % 10)

/-- The ephemeral alert event check_alerts appends for a breached
threshold. -/
structure AlertEvent where
  type : String
  message : String
deriving DecidableEq, Repr

/-- The latest-value map returned by AlertManager._get_latest_metrics, with
the dictionary get default of 0 for an absent name. -/
def lookupMetric (latest : List (String × ℚ)) (nm : String) : ℚ :=
  (latest.lookup nm).getD 0

/-- The CPU branch of AlertManager.check_alerts: a strictly greater latest
value appends one alert whose message embeds the value to one decimal
place and the configured threshold. -/
def cpu_alerts (s : MonitorSettings) (latest : List (String × ℚ)) : List AlertEvent :=
  if lookupMetric latest "cpu_percent" > (s.cpu_threshold : ℚ) then
    [⟨"CPU", "CPU usage is " ++ fmt1 (lookupMetric latest "cpu_percent")
        ++ "%, exceeding threshold of " ++ toString s.cpu_threshold ++ "%"⟩]
  else []

/-- The Memory branch of AlertManager.check_alerts. -/
def memory_alerts (s : MonitorSettings) (latest : List (String × ℚ)) : List AlertEvent :=
  if lookupMetric latest "memory_percent" > (s.memory_threshold : ℚ) then
    [⟨"Memory", "Memory usage is " ++ fmt1 (lookupMetric latest "memory_percent")
        ++ "%, exceeding threshold of " ++ toString s.memory_threshold ++ "%"⟩]
  else []

/-- The Disk branch of AlertManager.check_alerts. -/
def disk_alerts (s : MonitorSettings) (latest : List (String × ℚ)) : List AlertEvent :=
  if lookupMetric latest "disk_percent" > (s.disk_threshold : ℚ) then
    [⟨"Disk", "Disk usage is " ++ fmt1 (lookupMetric latest "disk_percent")
        ++ "%, exceeding threshold of " ++ toString s.disk_threshold ++ "%"⟩]
  else []

/-- AlertManager.check_alerts: nothing without settings or with alerting
disabled; otherwise the CPU, Memory and Disk threshold checks in order,
each contributing at most one alert event. -/
def check_alerts (settings : Option MonitorSettings) (latest : List (String × ℚ)) :
    List AlertEvent :=
  match settings with
  | none => []
  | some s =>
    if !s.enable_alerts then []
    else cpu_alerts s latest ++ memory_alerts s latest ++ disk_alerts s latest

/- ### Metric sampling (monitor.py, SystemMonitor and DatabaseMonitor) -/

/-- A stored DevOps Metric record; details carries the {name, pid} payload
of the top-process metrics. -/
structure Metric where
  timestamp : String
  metric_type : String
  metric_name : String
  value : ℚ
  unit : String
  details : Option (String × Int)
deriving DecidableEq, Repr

/-- One process row as psutil.process_iter yields it; cmdline is nothing
when the process has no (or an empty) command line. -/
structure ProcInfo where
  pid : Int
  pname : String
  cmdline : Option String
  memory_percent : ℚ
deriving DecidableEq, Repr

/-- One pass of host counters as psutil exposes them to SystemMonitor. -/
structure HostSample where
  cpu_percent : ℚ
  cpu_count : Int
  cpu_freq : Option ℚ
  loadavg : Option (ℚ × ℚ × ℚ)
  per_cpu : List ℚ
  memory_percent : ℚ
  memory_used : ℚ
  memory_available : ℚ
  memory_total : ℚ
  swap_percent : ℚ
  swap_used : ℚ
  disk_used : ℚ
  disk_free : ℚ
  disk_total : ℚ
  disk_io : Option (ℚ × ℚ)
  net_bytes_sent : ℚ
  net_bytes_recv : ℚ
  net_packets_sent : ℚ
  net_packets_recv : ℚ
  net_errin : ℚ
  net_errout : ℚ
  net_connections : Int
  pids_count : Int
  procs : List ProcInfo

/-- SystemMonitor._collect_cpu_metrics: utilization, core count, optional
frequency, optional load averages, and one metric per core. -/
def collect_cpu_metrics (now : String) (h : HostSample) : List Metric :=
  [⟨now, "System", "cpu_percent", h.cpu_percent, "%", none⟩,
   ⟨now, "System", "cpu_count", (h.cpu_count : ℚ), "cores", none⟩]
  ++ (match h.cpu_freq with
      | some f => [⟨now, "System", "cpu_frequency", f, "MHz", none⟩]
      | none => [])
  ++ (match h.loadavg with
      | some l => [⟨now, "System", "load_avg_1min", l.1, "", none⟩,
                   ⟨now, "System", "load_avg_5min", l.2.1, "", none⟩,
                   ⟨now, "System", "load_avg_15min", l.2.2, "", none⟩]
      | none => [])
  ++ (h.per_cpu.enum.map fun p =>
      ⟨now, "System", "cpu_" ++ toString p.1 ++ "_usage", p.2, "%", none⟩)

/-- SystemMonitor._collect_memory_metrics (gigabyte conversions are exact
rational divisions). -/
def collect_memory_metrics (now : String) (h : HostSample) : List Metric :=
  [⟨now, "System", "memory_percent", h.memory_percent, "%", none⟩,
   ⟨now, "System", "memory_used_gb", h.memory_used / 1024 ^ 3, "GB", none⟩,
   ⟨now, "System", "memory_available_gb", h.memory_available / 1024 ^ 3, "GB", none⟩,
   ⟨now, "System", "memory_total_gb", h.memory_total / 1024 ^ 3, "GB", none⟩,
   ⟨now, "System", "swap_percent", h.swap_percent, "%", none⟩,
   ⟨now, "System", "swap_used_gb", h.swap_used / 1024 ^ 3, "GB", none⟩]

/-- SystemMonitor._collect_disk_metrics. -/
def collect_disk_metrics (now : String) (h : HostSample) : List Metric :=
  [⟨now, "System", "disk_percent", h.disk_used / h.disk_total * 100, "%", none⟩,
   ⟨now, "System", "disk_used_gb", h.disk_used / 1024 ^ 3, "GB", none⟩,
   ⟨now, "System", "disk_free_gb", h.disk_free / 1024 ^ 3, "GB", none⟩,
   ⟨now, "System", "disk_total_gb", h.disk_total / 1024 ^ 3, "GB", none⟩]
  ++ (match h.disk_io with
      | some io2 => [⟨now, "System", "disk_read_mb", io2.1 / 1024 ^ 2, "MB", none⟩,
                     ⟨now, "System", "disk_write_mb", io2.2 / 1024 ^ 2, "MB", none⟩]
      | none => [])

/-- SystemMonitor._collect_network_metrics. -/
def collect_network_metrics (now : String) (h : HostSample) : List Metric :=
  [⟨now, "Network", "net_sent_mb", h.net_bytes_sent / 1024 ^ 2, "MB", none⟩,
   ⟨now, "Network", "net_recv_mb", h.net_bytes_recv / 1024 ^ 2, "MB", none⟩,
   ⟨now, "Network", "net_packets_sent", h.net_packets_sent, "packets", none⟩,
   ⟨now, "Network", "net_packets_recv", h.net_packets_recv, "packets", none⟩,
   ⟨now, "Network", "net_errors_in", h.net_errin, "errors", none⟩,
   ⟨now, "Network", "net_errors_out", h.net_errout, "errors", none⟩,
   ⟨now, "Network", "net_connections", (h.net_connections : ℚ), "connections", none⟩]

/-- SystemMonitor._collect_process_metrics: total count, the count of
processes whose lower-cased command line mentions frappe or gunicorn, and
the top five processes by (nonzero) memory percent, each with a
{name, pid} detail payload. -/
def collect_process_metrics (now : String) (h : HostSample) : List Metric :=
  let frappe_processes := h.procs.countP (fun p =>
    match p.cmdline with
    | some c => listContains (pyLower c) "frappe".data || listContains (pyLower c) "gunicorn".data
    | none => false)
  let withMem := h.procs.filter (fun p => decide (p.memory_percent ≠ 0))
  let top := (sortDescBy (fun p => p.memory_percent) withMem).take 5
  [⟨now, "System", "process_count", (h.pids_count : ℚ), "processes", none⟩,
   ⟨now, "Application", "frappe_processes", (frappe_processes : ℚ), "processes", none⟩]
  ++ (top.enum.map fun p =>
      ⟨now, "System", "top_proc_" ++ toString (p.1 + 1) ++ "_memory", p.2.memory_percent,
       "%", some (p.2.pname, p.2.pid)⟩)

/-- SystemMonitor.collect_metrics: a missing settings record or disabled
monitoring returns with the metric store untouched; otherwise the five
sampling groups append their metrics. -/
def SystemMonitor_collect_metrics (settings : Option MonitorSettings) (h : HostSample)
    (now : String) (store : List Metric) : List Metric :=
  match settings with
  | none => store
  | some s =>
    if !s.enable_monitoring then store
    else store ++ collect_cpu_metrics now h ++ collect_memory_metrics now h
      ++ collect_disk_metrics now h ++ collect_network_metrics now h
      ++ collect_process_metrics now h

/-- One pass of database introspection rows as DatabaseMonitor queries
them: the connection and table counts, the aggregate size (nothing when the
SUM is NULL), and the elapsed seconds of each in-flight operation. -/
structure DbSample where
  active_connections : Int
  table_count : Int
  db_size : Option ℚ
  process_times : List ℚ

/-- The slow-query threshold DatabaseMonitor uses: the Python expression
(settings.slow_query_threshold or 1000), whose fallback fires when the
configured value is unset or zero. -/
def DatabaseMonitor_slow_threshold (s : MonitorSettings) : ℚ :=
  match s.slow_query_threshold with
  | none => 1000
  | some v => if v = 0 then 1000 else v

/-- DatabaseMonitor.collect_metrics: the same settings guard as the system
monitor; the slow-query count compares each operation time in seconds to
the millisecond threshold divided by 1000. -/
def DatabaseMonitor_collect_metrics (settings : Option MonitorSettings) (db : DbSample)
    (now : String) (store : List Metric) : List Metric :=
  match settings with
  | none => store
  | some s =>
    if !s.enable_monitoring then store
    else
      let slow_threshold := DatabaseMonitor_slow_threshold s
      let slow_count := db.process_times.countP (fun t => decide (t > slow_threshold / 1000))
      store
      ++ [⟨now, "Database", "active_connections", (db.active_connections : ℚ), "connections", none⟩,
          ⟨now, "Database", "table_count", (db.table_count : ℚ), "tables", none⟩]
      ++ (match db.db_size with
          | some sz => if sz ≠ 0 then [⟨now, "Database", "database_size_mb", sz / 1024 ^ 2, "MB", none⟩] else []
          | none => [])
      ++ [⟨now, "Database", "slow_queries", (slow_count : ℚ), "queries", none⟩]

/- ### Settings validation (devops_monitor_settings.py) -/

/-- DevOpsMonitorSettings.validate: frappe.throw (an Except error here) on
the first of the three percentage thresholds outside 0 to 100; note that
the error-rate and slow-query thresholds are never examined. -/
def DevOpsMonitorSettings_validate (s : MonitorSettings) : Except String Unit :=
  if s.cpu_threshold < 0 ∨ s.cpu_threshold > 100 then
    Except.error "CPU Threshold must be between 0 and 100"
  else if s.memory_threshold < 0 ∨ s.memory_threshold > 100 then
    Except.error "Memory Threshold must be between 0 and 100"
  else if s.disk_threshold < 0 ∨ s.disk_threshold > 100 then
    Except.error "Disk Threshold must be between 0 and 100"
  else Except.ok ()

/-- Modelled from the spec: the save flow around validate lives in the host
framework, not in this repository.  Per the spec a configuration write
validates first; a validation error rejects the write and leaves the stored
settings unchanged, and a successful validation stores the new document. -/
def write_settings (store : Option MonitorSettings) (d : MonitorSettings) :
    Except String Unit × Option MonitorSettings :=
  match DevOpsMonitorSettings_validate d with
  | Except.error e => (Except.error e, store)
  | Except.ok _ => (Except.ok (), some d)

/- ### Retention sweep (devops_log_entry.py) -/

/-- A stored DevOps Log Entry row: its primary-key name and its timestamp,
instants being modeled as integer seconds. -/
structure LogEntryRec where
  name : String
  timestamp : Int
deriving DecidableEq, Repr

/-- frappe.delete_doc: remove the row with the given primary-key name. -/
def frappe_delete_doc (store : List LogEntryRec) (docname : String) : List LogEntryRec :=
  store.filter (fun r => decide (r.name ≠ docname))

/-- clear_old_logs: compute the cutoff (now minus the retention days), pluck
the names of the rows strictly older, delete each, and return how many
names were plucked. -/
def clear_old_logs (store : List LogEntryRec) (now : Int) (days : Int) :
    List LogEntryRec × Nat :=
  let cutoff := now - days * 86400
  let old_logs := (store.filter (fun r => decide (r.timestamp < cutoff))).map (fun r => r.name)
  (old_logs.foldl frappe_delete_doc store, old_logs.length)
/- ### Shared lemmas -/

/-- Membership in an insertion: the inserted element or an old one. -/
theorem mem_insertDescBy [LinearOrder β] (key : α → β) (x : α) (l : List α) (z : α)
    (hz : z ∈ insertDescBy key x l) : z = x ∨ z ∈ l := by
  induction l with
  | nil => simpa [insertDescBy] using hz
  | cons y ys ih =>
    rw [insertDescBy] at hz
    split at hz
    · rcases List.mem_cons.1 hz with h | h
      · exact Or.inr (List.mem_cons.2 (Or.inl h))
      · rcases ih h with h2 | h2
        · exact Or.inl h2
        · exact Or.inr (List.mem_cons.2 (Or.inr h2))
    · rcases List.mem_cons.1 hz with h | h
      · exact Or.inl h
      · exact Or.inr h

/-- Insertion preserves descending sortedness. -/
theorem pairwise_insertDescBy [LinearOrder β] (key : α → β) (x : α) (l : List α)
    (h : l.Pairwise (fun a b => key b ≤ key a)) :
    (insertDescBy key x l).Pairwise (fun a b => key b ≤ key a) := by
  induction l with
  | nil => simp [insertDescBy]
  | cons y ys ih =>
    rw [List.pairwise_cons] at h
    rw [insertDescBy]
    split
    · rw [List.pairwise_cons]
      refine ⟨fun z hz => ?_, ih h.2⟩
      rcases mem_insertDescBy key x ys z hz with rfl | hmem
      · assumption
      · exact h.1 z hmem
    · rw [List.pairwise_cons]
      refine ⟨fun z hz => ?_, List.pairwise_cons.2 h⟩
      rcases List.mem_cons.1 hz with rfl | hmem
      · exact le_of_not_le (by assumption)
      · exact le_trans (h.1 z hmem) (le_of_not_le (by assumption))

/-- The stable descending sort is descending-sorted. -/
theorem pairwise_sortDescBy [LinearOrder β] (key : α → β) (l : List α) :
    (sortDescBy key l).Pairwise (fun a b => key b ≤ key a) := by
  suffices h : ∀ acc : List α, acc.Pairwise (fun a b => key b ≤ key a) →
      (l.foldl (fun acc x => insertDescBy key x acc) acc).Pairwise (fun a b => key b ≤ key a) by
    exact h [] (by simp)
  induction l with
  | nil => exact fun acc hacc => hacc
  | cons y ys ih =>
    intro acc hacc
    exact ih (insertDescBy key y acc) (pairwise_insertDescBy key y acc hacc)

/- ### C2 / C9 / C6 -/

/-- C2 counterexample: a line containing EMERGENCY that the api.py level
detector classifies INFO, not CRITICAL. -/
theorem c2_counterexample_emergency :
    api_detect_log_level "EMERGENCY shutdown" = "INFO" ∧
    api_detect_log_level "EMERGENCY shutdown" ≠ "CRITICAL" := by decide

/-- C2 amended: first-match-wins keyword priority holds for both detectors,
with the one difference that the critical keyword set of the api.py
detector is CRITICAL and FATAL only, without EMERGENCY; the two detectors
agree on every EMERGENCY-free line, and FATAL ERROR occurred is CRITICAL
for both. -/
theorem c2_level_priority (line : String) :
    ((listContains (pyUpper line) "CRITICAL".data || listContains (pyUpper line) "FATAL".data
        || listContains (pyUpper line) "EMERGENCY".data) = true →
      detect_log_level line = "CRITICAL") ∧
    ((listContains (pyUpper line) "CRITICAL".data || listContains (pyUpper line) "FATAL".data
        || listContains (pyUpper line) "EMERGENCY".data) = false →
      listContains (pyUpper line) "ERROR".data = true →
      detect_log_level line = "ERROR") ∧
    ((listContains (pyUpper line) "CRITICAL".data || listContains (pyUpper line) "FATAL".data
        || listContains (pyUpper line) "EMERGENCY".data) = false →
      listContains (pyUpper line) "ERROR".data = false →
      (listContains (pyUpper line) "WARNING".data || listContains (pyUpper line) "WARN".data) = true →
      detect_log_level line = "WARNING") ∧
    ((listContains (pyUpper line) "CRITICAL".data || listContains (pyUpper line) "FATAL".data
        || listContains (pyUpper line) "EMERGENCY".data) = false →
      listContains (pyUpper line) "ERROR".data = false →
      (listContains (pyUpper line) "WARNING".data || listContains (pyUpper line) "WARN".data) = false →
      listContains (pyUpper line) "INFO".data = true →
      detect_log_level line = "INFO") ∧
    ((listContains (pyUpper line) "CRITICAL".data || listContains (pyUpper line) "FATAL".data
        || listContains (pyUpper line) "EMERGENCY".data) = false →
      listContains (pyUpper line) "ERROR".data = false →
      (listContains (pyUpper line) "WARNING".data || listContains (pyUpper line) "WARN".data) = false →
      listContains (pyUpper line) "INFO".data = false →
      listContains (pyUpper line) "DEBUG".data = true →
      detect_log_level line = "DEBUG") ∧
    ((listContains (pyUpper line) "CRITICAL".data || listContains (pyUpper line) "FATAL".data
        || listContains (pyUpper line) "EMERGENCY".data) = false →
      listContains (pyUpper line) "ERROR".data = false →
      (listContains (pyUpper line) "WARNING".data || listContains (pyUpper line) "WARN".data) = false →
      listContains (pyUpper line) "INFO".data = false →
      listContains (pyUpper line) "DEBUG".data = false →
      detect_log_level line = "INFO") ∧
    ((listContains (pyUpper line) "CRITICAL".data || listContains (pyUpper line) "FATAL".data) = true →
      api_detect_log_level line = "CRITICAL") ∧
    ((listContains (pyUpper line) "CRITICAL".data || listContains (pyUpper line) "FATAL".data) = false →
      listContains (pyUpper line) "ERROR".data = true →
      api_detect_log_level line = "ERROR") ∧
    ((listContains (pyUpper line) "CRITICAL".data || listContains (pyUpper line) "FATAL".data) = false →
      listContains (pyUpper line) "ERROR".data = false →
      (listContains (pyUpper line) "WARNING".data || listContains (pyUpper line) "WARN".data) = false →
      listContains (pyUpper line) "INFO".data = false →
      listContains (pyUpper line) "DEBUG".data = false →
      api_detect_log_level line = "INFO") ∧
    (listContains (pyUpper line) "EMERGENCY".data = false →
      detect_log_level line = api_detect_log_level line) ∧
    (detect_log_level "FATAL ERROR occurred" = "CRITICAL" ∧
     api_detect_log_level "FATAL ERROR occurred" = "CRITICAL") := by
  refine ⟨?_, ?_, ?_, ?_, ?_, ?_, ?_, ?_, ?_, ?_, by decide, by decide⟩
  all_goals intros
  all_goals simp_all [detect_log_level, api_detect_log_level]

/-- C2 witness: the amended theorem applied to two concrete lines. -/
theorem c2_level_priority_witness :
    detect_log_level "reactor EMERGENCY" = "CRITICAL" ∧
    api_detect_log_level "reactor EMERGENCY" = "INFO" := by
  obtain ⟨a1, -, -, -, -, -, -, -, b6, -, -⟩ := c2_level_priority "reactor EMERGENCY"
  exact ⟨a1 (by decide), b6 (by decide) (by decide) (by decide) (by decide) (by decide)⟩

/-- C9: the collector level detector is total with values among the five
levels. -/
theorem c9_detect_log_level_total (line : String) :
    detect_log_level line = "DEBUG" ∨ detect_log_level line = "INFO" ∨
    detect_log_level line = "WARNING" ∨ detect_log_level line = "ERROR" ∨
    detect_log_level line = "CRITICAL" := by
  simp only [detect_log_level]
  split_ifs <;> simp

/-- C6: classification of the reference line, and the current-time fallback
when no pattern matches. -/
theorem c6_classify_roundtrip :
    extract_timestamp "2024-01-15 10:30:00 ERROR disk full" = some "2024-01-15 10:30:00" ∧
    detect_log_level "2024-01-15 10:30:00 ERROR disk full" = "ERROR" ∧
    clean_log_message "2024-01-15 10:30:00 ERROR disk full" = "ERROR disk full" ∧
    ∀ line now src : String, extract_timestamp line = none →
      (parse_log_line now line src).timestamp = now := by
  refine ⟨by decide, by decide, by decide, ?_⟩
  intro line now src h
  simp [parse_log_line, h]

/-- C6 witness: a line without any timestamp pattern falls back to the
supplied current time. -/
theorem c6_fallback_witness :
    extract_timestamp "no timestamp here" = none ∧
    (parse_log_line "2024-02-02 00:00:00" "no timestamp here" "frappe.log").timestamp =
      "2024-02-02 00:00:00" :=
  ⟨by decide, c6_classify_roundtrip.2.2.2 "no timestamp here" "2024-02-02 00:00:00"
                "frappe.log" (by decide)⟩

/- ### C1: threshold alerts -/

/-- The rational 85.3 in reduced form (kernel-computable constructor). -/
def q85_3 : ℚ := ⟨853, 10, by decide, by decide⟩

/-- The constructor form agrees with the division form. -/
theorem q85_3_eq_div : q85_3 = 853 / 10 := by
  rw [show q85_3 = Rat.mk' 853 10 from rfl, Rat.mk'_eq_divInt, Rat.divInt_eq_div]
  norm_num

/-- Every event the memory branch emits has type Memory. -/
theorem memory_alerts_types (s : MonitorSettings) (latest : List (String × ℚ)) :
    ∀ a ∈ memory_alerts s latest, a.type = "Memory" := by
  unfold memory_alerts
  split <;> simp

/-- Every event the disk branch emits has type Disk. -/
theorem disk_alerts_types (s : MonitorSettings) (latest : List (String × ℚ)) :
    ∀ a ∈ disk_alerts s latest, a.type = "Disk" := by
  unfold disk_alerts
  split <;> simp

/-- Every event the cpu branch emits has type CPU. -/
theorem cpu_alerts_types (s : MonitorSettings) (latest : List (String × ℚ)) :
    ∀ a ∈ cpu_alerts s latest, a.type = "CPU" := by
  unfold cpu_alerts
  split <;> simp

/-- The memory branch fires exactly on a strict threshold breach. -/
theorem memory_alerts_nonempty_iff (s : MonitorSettings) (latest : List (String × ℚ)) :
    memory_alerts s latest ≠ [] ↔
      (s.memory_threshold : ℚ) < lookupMetric latest "memory_percent" := by
  unfold memory_alerts
  split <;> simp_all

/-- The disk branch fires exactly on a strict threshold breach. -/
theorem disk_alerts_nonempty_iff (s : MonitorSettings) (latest : List (String × ℚ)) :
    disk_alerts s latest ≠ [] ↔
      (s.disk_threshold : ℚ) < lookupMetric latest "disk_percent" := by
  unfold disk_alerts
  split <;> simp_all

/-- C1: with alerting enabled and cpu threshold 80, a latest cpu percent of
85.3 yields exactly one CPU alert whose message contains 85.3 and 80; a
latest value of exactly 80 yields no CPU alert; and the Memory and Disk
branches fire exactly on their own strict greater-than comparisons. -/
theorem c1_check_alerts_strict (s : MonitorSettings) (latest : List (String × ℚ))
    (hen : s.enable_alerts = true) :
    (s.cpu_threshold = 80 → lookupMetric latest "cpu_percent" = q85_3 →
      ∃ m, (check_alerts (some s) latest).filter (fun a => decide (a.type = "CPU")) =
          [⟨"CPU", m⟩] ∧
        listContains m.data "85.3".data = true ∧ listContains m.data "80".data = true) ∧
    (s.cpu_threshold = 80 → lookupMetric latest "cpu_percent" = 80 →
      (check_alerts (some s) latest).filter (fun a => decide (a.type = "CPU")) = []) ∧
    ((check_alerts (some s) latest).filter (fun a => decide (a.type = "Memory")) ≠ [] ↔
      (s.memory_threshold : ℚ) < lookupMetric latest "memory_percent") ∧
    ((check_alerts (some s) latest).filter (fun a => decide (a.type = "Disk")) ≠ [] ↔
      (s.disk_threshold : ℚ) < lookupMetric latest "disk_percent") := by
  have hck : check_alerts (some s) latest =
      cpu_alerts s latest ++ memory_alerts s latest ++ disk_alerts s latest := by
    simp [check_alerts, hen]
  have hmemcpu : (memory_alerts s latest).filter (fun a => decide (a.type = "CPU")) = [] := by
    rw [List.filter_eq_nil_iff]
    intro a ha
    simp [memory_alerts_types s latest a ha]
  have hdiskcpu : (disk_alerts s latest).filter (fun a => decide (a.type = "CPU")) = [] := by
    rw [List.filter_eq_nil_iff]
    intro a ha
    simp [disk_alerts_types s latest a ha]
  have hcpumem : (cpu_alerts s latest).filter (fun a => decide (a.type = "Memory")) = [] := by
    rw [List.filter_eq_nil_iff]
    intro a ha
    simp [cpu_alerts_types s latest a ha]
  have hdiskmem : (disk_alerts s latest).filter (fun a => decide (a.type = "Memory")) = [] := by
    rw [List.filter_eq_nil_iff]
    intro a ha
    simp [disk_alerts_types s latest a ha]
  have hcpudisk : (cpu_alerts s latest).filter (fun a => decide (a.type = "Disk")) = [] := by
    rw [List.filter_eq_nil_iff]
    intro a ha
    simp [cpu_alerts_types s latest a ha]
  have hmemdisk : (memory_alerts s latest).filter (fun a => decide (a.type = "Disk")) = [] := by
    rw [List.filter_eq_nil_iff]
    intro a ha
    simp [memory_alerts_types s latest a ha]
  refine ⟨?_, ?_, ?_, ?_⟩
  · intro hth hlk
    refine ⟨"CPU usage is " ++ fmt1 q85_3 ++ "%, exceeding threshold of "
      ++ toString s.cpu_threshold ++ "%", ?_, ?_, ?_⟩
    · rw [hck, List.filter_append, List.filter_append, hmemcpu, hdiskcpu]
      unfold cpu_alerts
      rw [hlk, hth]
      norm_num [q85_3_eq_div]
    · rw [hth]
      decide
    · rw [hth]
      decide
  · intro hth hlk
    rw [hck, List.filter_append, List.filter_append, hmemcpu, hdiskcpu]
    unfold cpu_alerts
    rw [hlk, hth]
    norm_num
  · rw [hck, List.filter_append, List.filter_append, hcpumem, hdiskmem]
    rw [List.append_nil, List.nil_append]
    rw [← memory_alerts_nonempty_iff]
    constructor
    · intro h h2
      exact h (by rw [h2, List.filter_nil])
    · intro h h2
      apply h
      rw [List.filter_eq_nil_iff] at h2
      rw [List.eq_nil_iff_forall_not_mem]
      intro a ha
      exact h2 a ha (by simp [memory_alerts_types s latest a ha])
  · rw [hck, List.filter_append, List.filter_append, hcpudisk, hmemdisk]
    rw [List.append_nil, List.nil_append]
    rw [← disk_alerts_nonempty_iff]
    constructor
    · intro h h2
      exact h (by rw [h2, List.filter_nil])
    · intro h h2
      apply h
      rw [List.filter_eq_nil_iff] at h2
      rw [List.eq_nil_iff_forall_not_mem]
      intro a ha
      exact h2 a ha (by simp [disk_alerts_types s latest a ha])

/-- C1 witness: the theorem at a concrete settings record and metric map. -/
theorem c1_check_alerts_strict_witness :
    (∃ m, (check_alerts (some ⟨true, true, 80, 90, 90, 70, none, "logs"⟩)
        [("cpu_percent", q85_3)]).filter (fun a => decide (a.type = "CPU")) = [⟨"CPU", m⟩] ∧
      listContains m.data "85.3".data = true ∧ listContains m.data "80".data = true) ∧
    (check_alerts (some ⟨true, true, 80, 90, 90, 70, none, "logs"⟩)
        [("cpu_percent", (80 : ℚ))]).filter (fun a => decide (a.type = "CPU")) = [] := by
  constructor
  · exact (c1_check_alerts_strict ⟨true, true, 80, 90, 90, 70, none, "logs"⟩
      [("cpu_percent", q85_3)] rfl).1 rfl rfl
  · exact (c1_check_alerts_strict ⟨true, true, 80, 90, 90, 70, none, "logs"⟩
      [("cpu_percent", (80 : ℚ))] rfl).2.1 rfl rfl

/- ### C4: collection is sorted, bounded, and skips missing files -/

/-- C4: both collectors return a list sorted non-increasing by timestamp
string of length at most the requested budget, and configured files that do
not exist contribute nothing (collection over an empty file system is
empty, not an error). -/
theorem c4_collect_logs_sorted_bounded (settings : Option MonitorSettings)
    (fs : String → Option String) (now : String) (lines : Nat) :
    (collect_frappe_logs settings fs now lines).Pairwise
        (fun a b => b.timestamp ≤ a.timestamp) ∧
    (collect_frappe_logs settings fs now lines).length ≤ lines ∧
    (collect_error_logs settings fs now lines).Pairwise
        (fun a b => b.timestamp ≤ a.timestamp) ∧
    (collect_error_logs settings fs now lines).length ≤ lines ∧
    ((∀ p, fs p = none) →
      collect_frappe_logs settings fs now lines = [] ∧
      collect_error_logs settings fs now lines = []) := by
  refine ⟨?_, ?_, ?_, ?_, ?_⟩
  · cases settings with
    | none => simp [collect_frappe_logs]
    | some s =>
      exact List.Pairwise.sublist (List.take_sublist _ _)
        (pairwise_sortDescBy (fun x : ParsedLog => x.timestamp) _)
  · cases settings with
    | none => simp [collect_frappe_logs]
    | some s => exact List.length_take_le _ _
  · cases settings with
    | none => simp [collect_error_logs]
    | some s =>
      exact List.Pairwise.sublist (List.take_sublist _ _)
        (pairwise_sortDescBy (fun x : ParsedLog => x.timestamp) _)
  · cases settings with
    | none => simp [collect_error_logs]
    | some s => exact List.length_take_le _ _
  · intro hfs
    cases settings with
    | none => simp [collect_frappe_logs, collect_error_logs]
    | some s =>
      constructor
      · simp [collect_frappe_logs, hfs, sortDescBy]
      · simp [collect_error_logs, hfs, sortDescBy]

/-- C4 witness: the theorem at a concrete configuration over the empty file
system. -/
theorem c4_collect_logs_witness :
    collect_frappe_logs (some ⟨true, true, 80, 90, 90, 70, none, "logs"⟩)
      (fun _ => none) "2024-02-02 00:00:00" 100 = [] ∧
    collect_error_logs (some ⟨true, true, 80, 90, 90, 70, none, "logs"⟩)
      (fun _ => none) "2024-02-02 00:00:00" 100 = [] :=
  (c4_collect_logs_sorted_bounded (some ⟨true, true, 80, 90, 90, 70, none, "logs"⟩)
    (fun _ => none) "2024-02-02 00:00:00" 100).2.2.2.2 (fun _ => rfl)

/- ### C5: settings validation -/

/-- C5 counterexample: a document whose error rate threshold is 150 passes
validation, so the write succeeds and replaces the store. -/
theorem c5_counterexample_error_rate :
    write_settings none ⟨true, true, 50, 50, 50, 150, none, "logs"⟩ =
      (Except.ok (), some ⟨true, true, 50, 50, 50, 150, none, "logs"⟩) := rfl

/-- C5 amended: a write is rejected exactly when the cpu, memory or disk
threshold lies outside 0 to 100 (the error rate threshold is not
validated), and a rejected write leaves the store unchanged. -/
theorem c5_validate_thresholds (store : Option MonitorSettings) (d : MonitorSettings) :
    ((∃ e, (write_settings store d).1 = Except.error e) ↔
      (d.cpu_threshold < 0 ∨ d.cpu_threshold > 100 ∨
       d.memory_threshold < 0 ∨ d.memory_threshold > 100 ∨
       d.disk_threshold < 0 ∨ d.disk_threshold > 100)) ∧
    ((∃ e, (write_settings store d).1 = Except.error e) →
      (write_settings store d).2 = store) := by
  unfold write_settings DevOpsMonitorSettings_validate
  split_ifs with h1 h2 h3 <;> simp <;> first | tauto | omega

/-- C5 witness: the amended theorem at a concrete document with cpu
threshold 150: the write errors and the store keeps its previous value. -/
theorem c5_validate_thresholds_witness :
    ∃ e, (write_settings (some ⟨true, true, 50, 50, 50, 50, none, "logs"⟩)
            ⟨true, true, 150, 50, 50, 50, none, "logs"⟩).1 = Except.error e ∧
      (write_settings (some ⟨true, true, 50, 50, 50, 50, none, "logs"⟩)
            ⟨true, true, 150, 50, 50, 50, none, "logs"⟩).2 =
        some ⟨true, true, 50, 50, 50, 50, none, "logs"⟩ := by
  have h := c5_validate_thresholds (some ⟨true, true, 50, 50, 50, 50, none, "logs"⟩)
    ⟨true, true, 150, 50, 50, 50, none, "logs"⟩
  obtain ⟨e, he⟩ := h.1.mpr (by norm_num)
  exact ⟨e, he, h.2 ⟨e, he⟩⟩

/- ### C7: retention sweep -/

/-- Deleting a list of names one by one filters out exactly the rows whose
name occurs in the list. -/
theorem foldl_delete_eq_filter (names : List String) (store : List LogEntryRec) :
    names.foldl frappe_delete_doc store =
      store.filter (fun r => decide (r.name ∉ names)) := by
  induction names generalizing store with
  | nil => simp
  | cons n ns ih =>
    rw [List.foldl_cons, ih, frappe_delete_doc, List.filter_filter]
    apply List.filter_congr
    intro r _
    simp [List.mem_cons, not_or, Bool.and_comm]

/-- C7: with distinct row names (the primary-key invariant of the store),
the sweep keeps exactly the rows at or after the cutoff, in order, and
returns the exact number of strictly older rows it removed. -/
theorem c7_clear_old_logs_exact (store : List LogEntryRec) (now days : Int)
    (hnodup : (store.map (fun r => r.name)).Nodup) :
    (clear_old_logs store now days).1 =
      store.filter (fun r => decide (now - days * 86400 ≤ r.timestamp)) ∧
    (clear_old_logs store now days).2 =
      store.countP (fun r => decide (r.timestamp < now - days * 86400)) := by
  have hinj := List.inj_on_of_nodup_map hnodup
  constructor
  · rw [show (clear_old_logs store now days).1 =
        ((store.filter (fun r => decide (r.timestamp < now - days * 86400))).map
          (fun r => r.name)).foldl frappe_delete_doc store from rfl]
    rw [foldl_delete_eq_filter]
    apply List.filter_congr
    intro r hr
    have : r.name ∈ (store.filter
        (fun r2 => decide (r2.timestamp < now - days * 86400))).map (fun r2 => r2.name) ↔
        r.timestamp < now - days * 86400 := by
      constructor
      · intro hmem
        obtain ⟨r2, hr2, hname⟩ := List.mem_map.1 hmem
        obtain ⟨hr2s, hr2old⟩ := List.mem_filter.1 hr2
        have := hinj hr2s hr hname
        subst this
        exact of_decide_eq_true hr2old
      · intro hold
        exact List.mem_map.2 ⟨r, List.mem_filter.2 ⟨hr, decide_eq_true hold⟩, rfl⟩
    simp [this, not_lt]
  · rw [show (clear_old_logs store now days).2 =
        ((store.filter (fun r => decide (r.timestamp < now - days * 86400))).map
          (fun r => r.name)).length from rfl]
    rw [List.length_map, List.countP_eq_length_filter]

/-- C7 witness: a two-row store, thirty days retention: the older row is
removed and counted, the newer row survives. -/
theorem c7_clear_old_logs_witness :
    (clear_old_logs [⟨"a", 0⟩, ⟨"b", 100⟩] (30 * 86400 + 50) 30).1 = [⟨"b", 100⟩] ∧
    (clear_old_logs [⟨"a", 0⟩, ⟨"b", 100⟩] (30 * 86400 + 50) 30).2 = 1 := by
  have h := c7_clear_old_logs_exact [⟨"a", 0⟩, ⟨"b", 100⟩] (30 * 86400 + 50) 30 (by decide)
  exact ⟨h.1.trans (by decide), h.2.trans (by decide)⟩

/- ### C8: disabled monitoring is a no-op -/

/-- C8: with no settings record or with monitoring disabled, neither the
system monitor nor the database monitor changes the metric store. -/
theorem c8_collect_metrics_noop (settings : Option MonitorSettings) (h : HostSample)
    (db : DbSample) (now : String) (store : List Metric)
    (hdis : settings = none ∨ ∃ s, settings = some s ∧ s.enable_monitoring = false) :
    SystemMonitor_collect_metrics settings h now store = store ∧
    DatabaseMonitor_collect_metrics settings db now store = store := by
  rcases hdis with rfl | ⟨s, rfl, hs⟩
  · exact ⟨rfl, rfl⟩
  · constructor
    · simp [SystemMonitor_collect_metrics, hs]
    · simp [DatabaseMonitor_collect_metrics, hs]

/-- C8 witness: the theorem with a missing settings record and with a
disabled one, at concrete samples and a nonempty store. -/
theorem c8_collect_metrics_noop_witness :
    SystemMonitor_collect_metrics none
      ⟨0, 0, none, none, [], 0, 0, 0, 0, 0, 0, 0, 0, 1, none, 0, 0, 0, 0, 0, 0, 0, 0, []⟩
      "now" [⟨"t", "System", "cpu_percent", 1, "%", none⟩] =
      [⟨"t", "System", "cpu_percent", 1, "%", none⟩] ∧
    DatabaseMonitor_collect_metrics (some ⟨false, true, 80, 90, 90, 70, none, "logs"⟩)
      ⟨0, 0, none, []⟩ "now" [⟨"t", "System", "cpu_percent", 1, "%", none⟩] =
      [⟨"t", "System", "cpu_percent", 1, "%", none⟩] :=
  ⟨(c8_collect_metrics_noop none
      ⟨0, 0, none, none, [], 0, 0, 0, 0, 0, 0, 0, 0, 1, none, 0, 0, 0, 0, 0, 0, 0, 0, []⟩
      ⟨0, 0, none, []⟩ "now" [⟨"t", "System", "cpu_percent", 1, "%", none⟩]
      (Or.inl rfl)).1,
   (c8_collect_metrics_noop (some ⟨false, true, 80, 90, 90, 70, none, "logs"⟩)
      ⟨0, 0, none, none, [], 0, 0, 0, 0, 0, 0, 0, 0, 1, none, 0, 0, 0, 0, 0, 0, 0, 0, []⟩
      ⟨0, 0, none, []⟩ "now" [⟨"t", "System", "cpu_percent", 1, "%", none⟩]
      (Or.inr ⟨_, rfl, rfl⟩)).2⟩

/- ### C10: slow-query threshold conversion and fallback -/

/-- C10: the database monitor always appends the slow-query metric last,
counting the operations whose elapsed seconds strictly exceed the
millisecond threshold divided by 1000; a configured threshold of zero or
an unset one falls back to 1000 milliseconds, a nonzero one is used as
given. -/
theorem c10_slow_query_threshold (s : MonitorSettings) (db : DbSample) (now : String)
    (store : List Metric) (hen : s.enable_monitoring = true) :
    (DatabaseMonitor_collect_metrics (some s) db now store).getLast? =
      some ⟨now, "Database", "slow_queries",
        (db.process_times.countP
          (fun t => decide (t > DatabaseMonitor_slow_threshold s / 1000)) : ℚ),
        "queries", none⟩ ∧
    (s.slow_query_threshold = none → DatabaseMonitor_slow_threshold s = 1000) ∧
    (s.slow_query_threshold = some 0 → DatabaseMonitor_slow_threshold s = 1000) ∧
    (∀ v : ℚ, s.slow_query_threshold = some v → v ≠ 0 →
      DatabaseMonitor_slow_threshold s = v) := by
  refine ⟨?_, ?_, ?_, ?_⟩
  · simp only [DatabaseMonitor_collect_metrics, hen, Bool.not_true, Bool.false_eq_true,
      if_false]
    rw [show store ++ _ ++ _ ++ [(⟨now, "Database", "slow_queries",
        (db.process_times.countP
          (fun t => decide (t > DatabaseMonitor_slow_threshold s / 1000)) : ℚ),
        "queries", none⟩ : Metric)] =
      (store ++ _ ++ _) ++ [_] from rfl]
    exact List.getLast?_concat _
  · intro hn
    simp [DatabaseMonitor_slow_threshold, hn]
  · intro hn
    simp [DatabaseMonitor_slow_threshold, hn]
  · intro v hv hnz
    simp [DatabaseMonitor_slow_threshold, hv, hnz]

/-- C10 witness: the theorem at a concrete record whose configured slow
query threshold is zero, exercising the 1000 millisecond fallback. -/
theorem c10_slow_query_threshold_witness :
    (DatabaseMonitor_collect_metrics (some ⟨true, true, 80, 90, 90, 70, some 0, "logs"⟩)
        ⟨3, 7, none, [2, 5]⟩ "now" []).getLast? =
      some ⟨"now", "Database", "slow_queries",
        (([2, 5] : List ℚ).countP (fun t => decide (t >
          DatabaseMonitor_slow_threshold ⟨true, true, 80, 90, 90, 70, some 0, "logs"⟩ / 1000)) : ℚ),
        "queries", none⟩ ∧
    DatabaseMonitor_slow_threshold ⟨true, true, 80, 90, 90, 70, some 0, "logs"⟩ = 1000 := by
  have h := c10_slow_query_threshold ⟨true, true, 80, 90, 90, 70, some 0, "logs"⟩
    ⟨3, 7, none, [2, 5]⟩ "now" [] rfl
  exact ⟨h.1, h.2.2.1 rfl⟩

/- ### C3: tail_log_file -/

/-- C3: tail_log_file returns the empty list on every input.  A missing
file returns empty by the exists-check; a zero-byte file (or a zero line
budget) never enters the loop and the final slice of the empty collection
is empty; and any nonempty file enters the loop, whose first statement is a
nonzero cur-relative seek on a text-mode file, so the raised
io.UnsupportedOperation lands in the except clause, which returns empty.
The last N lines the function is documented to return are never produced. -/
theorem c3_tail_log_file_always_empty (file : Option String) (lines : Nat) :
    tail_log_file file lines = [] := by
  cases file with
  | none => rfl
  | some content =>
    simp only [tail_log_file]
    rw [tailLoop]
    by_cases h : 0 < content.data.length ∧ ([] : List (List Char)).length < lines
    · rw [if_pos h]
      obtain ⟨h1, h2⟩ := h
      have h1s : 0 < content.length := h1
      simp only [textSeekCur]
      split_ifs with hz hz2 <;> first | rfl | (exfalso; omega)
    · rw [if_neg h]
      simp [pyLastSlice]
